import Mathlib

/-!
Shallow embedding of `lucetc`'s compilation-orchestration pipeline
(`src/lucetc/src/compiler.rs`): the `Compiler::new` constructor and the
`object_file` object-assembly routine, together with the helper functions
`write_module_data`, `write_startfunc_data`, `traps_to_module_traps` and
`write_trap_table`.

External collaborators (cranelift's translator/code generator, the
`wasmparser` validator, the `lucet_validate` validator) are modelled as
oracles: their outcome on each input is a field of the input record.
Pieces of this repository that live outside `compiler.rs` (the error
taxonomy in `error.rs`, `cpu_features.rs`, `traps.rs`, `stack_probe.rs`,
`table.rs`, the `lucet_module` constants) are modelled from the spec and
carry a doc comment saying so.
-/

namespace Lucet

/-- Opaque cause of a cranelift per-function translation failure. -/
abbrev TransErr := Nat

/-- Opaque cause of a cranelift per-function definition (codegen) failure. -/
abbrev DefErr := Nat

/-- Embeds `cranelift_wasm::WasmError`, the error type of `translate_module`. -/
inductive WasmError where
  | User (u : String)
  | InvalidWebAssembly (k : Nat)
  | Unsupported (s : String)
  | ImplLimitExceeded (k : Nat)
deriving DecidableEq, Repr

/-- The `lucetc` error taxonomy. The variants used by `compiler.rs` are taken
from the source (`Input`, `Unsupported`, `ClifWasmError`, `LucetValidation`,
`WasmValidation`, `FunctionTranslation`, `FunctionDefinition`,
`ClifModuleError`, `MetadataSerializer`). `error.rs` itself is not in the
sources; the remaining variants (`TargetConfiguration`,
`ImplementationLimitExceeded`) are modelled from the spec's error taxonomy
(spec section 7). -/
inductive Error where
  | TargetConfiguration (msg : String)
  | LucetValidation (e : Nat)
  | WasmValidation (e : Nat)
  | Input (u : String)
  | Unsupported (s : String)
  | ClifWasmError (e : WasmError)
  | ImplementationLimitExceeded (k : Nat)
  | FunctionTranslation (symbol : String) (source : TransErr)
  | FunctionDefinition (symbol : String) (source : DefErr)
  | ClifModuleError (e : Nat)
  | MetadataSerializer (e : Nat)
deriving DecidableEq, Repr

deriving instance DecidableEq for Except

/-- Embeds `cranelift_codegen::ir::TrapCode`, as carried by the trap sites that
cranelift's code generator reports for a compiled function. -/
inductive ClifTrapCode where
  | StackOverflow
  | HeapOutOfBounds
  | IndirectCallToNull
  | BadSignature
  | IntegerOverflow
  | IntegerDivisionByZero
  | BadConversionToInteger
  | Interrupt
  | TableOutOfBounds
  | UnreachableCodeReached
  | User (n : Nat)
deriving DecidableEq, Repr

/-- Embeds `cranelift_module::TrapSite`: a code offset paired with a trap cause. -/
structure ClifTrapSite where
  offset : Nat
  code : ClifTrapCode
deriving DecidableEq, Repr

/-- Modelled from the spec: `translate_trapcode` (in `traps.rs`, not among the
sources) maps cranelift's trap cause onto the stable, serializable `u32` tag
of `lucet_module::TrapCode` that crosses the object-file boundary. -/
def translate_trapcode : ClifTrapCode → Nat
  | .StackOverflow => 0
  | .HeapOutOfBounds => 1
  | .IndirectCallToNull => 2
  | .BadSignature => 3
  | .IntegerOverflow => 4
  | .IntegerDivisionByZero => 5
  | .BadConversionToInteger => 6
  | .Interrupt => 7
  | .TableOutOfBounds => 8
  | .UnreachableCodeReached => 9
  | .User _ => 10

/-- Embeds `lucet_module::TrapSite`: a `#[repr(C)]` pair of `u32`s
`(offset, code)`, 8 bytes in memory. -/
structure TrapSite where
  offset : Nat
  code : Nat
deriving DecidableEq, Repr

/-- The four little-endian bytes of a `u32`. -/
def bytesOfU32 (n : Nat) : List Nat :=
  [n % 256, n / 256 % 256, n / 65536 % 256, n / 16777216 % 256]

/-- The in-memory bytes of one `lucet_module::TrapSite` record
(fixed width: 8 bytes). -/
def bytesOfTrapSite (t : TrapSite) : List Nat :=
  bytesOfU32 t.offset ++ bytesOfU32 t.code

/-- Embeds `traps_to_module_traps` (compiler.rs:449-466): translate each cranelift
trap site into a `lucet_module::TrapSite` and reinterpret the resulting
vector's memory as raw bytes. -/
def traps_to_module_traps (traps : List ClifTrapSite) : List Nat :=
  List.flatten ((traps.map fun site =>
    TrapSite.mk site.offset (translate_trapcode site.code)).map bytesOfTrapSite)

/-- Embeds `cranelift_module::Linkage`. -/
inductive Linkage where
  | Import
  | Local
  | Preemptible
  | Export
deriving DecidableEq, Repr

/-- A data symbol defined in the cranelift module: name, linkage, writability,
content bytes, and function-address relocations `(byte offset, target
function symbol)` written through `declare_func_in_data` /
`write_function_addr`. -/
structure DataSym where
  name : String
  linkage : Linkage
  writable : Bool
  bytes : List Nat
  funcRelocs : List (Nat × String)
deriving DecidableEq, Repr

/-- What cranelift's `define_function` / `define_function_bytes` returns and
the module context retains per compiled function: the code length and the
trap sites the code generator captured. -/
structure CompiledFunc where
  codeLength : Nat
  traps : List ClifTrapSite
deriving DecidableEq, Repr

/-- One entry of `decls.function_bodies()`, bundled with the outcomes of the
two external calls made for it inside the `object_file` loop:
`FuncTranslator::translate` (lowering) and `clif_module.define_function`
(codegen). -/
structure FuncInput where
  symbol : String
  translateResult : Except TransErr Unit
  defineResult : Except DefErr CompiledFunc
deriving DecidableEq, Repr

/-- Embeds `lucet_module::FunctionSpec::new(ptr, len, traps_ptr, traps_len)`. -/
structure FunctionSpec where
  ptr : Nat
  len : Nat
  trapsPtr : Nat
  trapsLen : Nat
deriving DecidableEq, Repr

/-- Modelled from the spec: the fixed stack-probe symbol name declared by
`stack_probe.rs` (not among the sources). -/
def STACK_PROBE_SYM : String := "lucet_probestack"

/-- Modelled from the spec: the single reserved module-data symbol name
(`lucet_module::MODULE_DATA_SYM`, not among the sources). -/
def MODULE_DATA_SYM : String := "lucet_module_data"

/-- Modelled from the spec: `trap_sym_for_func` (in `traps.rs`, not among the
sources) derives a function's trap-table symbol as
trap-table-marker `.` function-symbol. -/
def trap_sym_for_func (sym : String) : String :=
  "lucet.trap_table." ++ sym

/-- Embeds `write_module_data` (compiler.rs:404-421): the module-metadata blob is
declared under `MODULE_DATA_SYM` with `Linkage::Local`, writable, and
defined with the serialized bytes. -/
def write_module_data (module_data_bytes : List Nat) : DataSym :=
  { name := MODULE_DATA_SYM
    linkage := Linkage.Local
    writable := true
    bytes := module_data_bytes
    funcRelocs := [] }

/-- Embeds `write_startfunc_data` (compiler.rs:423-447): when the module declares a
start function, define the exported 8-byte `guest_start` data symbol whose
content is eight zero bytes with a function-address relocation at offset 0
targeting the start function's symbol; otherwise define nothing. -/
def write_startfunc_data (startFunc : Option String) : List DataSym :=
  match startFunc with
  | none => []
  | some s =>
    [{ name := "guest_start"
       linkage := Linkage.Export
       writable := false
       bytes := List.replicate 8 0
       funcRelocs := [(0, s)] }]

/-- Embeds `write_trap_table` (compiler.rs:468-482): define the trap-table bytes
under the derived trap symbol with `Linkage::Export`. -/
def write_trap_table (trap_bytes : List Nat) (func_name : String) : DataSym :=
  { name := trap_sym_for_func func_name
    linkage := Linkage.Export
    writable := false
    bytes := trap_bytes
    funcRelocs := [] }

/-- Modelled from the spec: `write_table_data` (in `table.rs`, not among the
sources) defines the table-data segment as one exported data symbol and
returns its byte length. -/
def write_table_data (table_bytes : List Nat) : DataSym × Nat :=
  ({ name := "lucet_tables"
     linkage := Linkage.Export
     writable := false
     bytes := table_bytes
     funcRelocs := [] }, table_bytes.length)

/-- The input of one `object_file` run: the functions declared without bodies
(imports and runtime declarations), the function bodies in
`decls.function_bodies()` order, and the outcomes of the remaining external
calls (`define_function_bytes` for the stack probe,
`module_data()?.serialize()?`), plus the start-function declaration and the
table bytes read from the declaration directory. -/
structure ObjInput where
  importFuncs : List String
  funcs : List FuncInput
  probeDefineResult : Except Error CompiledFunc
  moduleDataResult : Except Error (List Nat)
  startFunc : Option String
  tableData : List Nat
deriving DecidableEq, Repr

/-- The `ObjectFile` value handed back by `object_file` on success, together
with the state of the cranelift module at `finish` time: every declared
function with its compiled artifact (if any), every defined data symbol. -/
structure ObjectFile where
  funcs : List (String × Option CompiledFunc)
  datas : List DataSym
  moduleDataLen : Nat
  functionManifest : List (String × FunctionSpec)
  tableLen : Nat
deriving DecidableEq, Repr

/-- The per-function loop of `object_file` (compiler.rs:271-300): for each
body in order, lower it (`FuncTranslator::translate`), define it
(`define_function`), and write its trap table. A lowering failure aborts
with `FunctionTranslation {symbol, source}`; a definition failure aborts
with `FunctionDefinition {symbol, source}`. On success, returns the
compiled functions and their trap-table data symbols, both in input order. -/
def compileFunctions : List FuncInput → Except Error (List (String × CompiledFunc) × List DataSym)
  | [] => Except.ok ([], [])
  | f :: rest =>
    match f.translateResult with
    | Except.error e => Except.error (Error.FunctionTranslation f.symbol e)
    | Except.ok _ =>
      match f.defineResult with
      | Except.error e => Except.error (Error.FunctionDefinition f.symbol e)
      | Except.ok compiled =>
        match compileFunctions rest with
        | Except.error e => Except.error e
        | Except.ok (fns, datas) =>
          Except.ok ((f.symbol, compiled) :: fns,
            write_trap_table (traps_to_module_traps compiled.traps) f.symbol :: datas)

/-- Embeds `Compiler::object_file` (compiler.rs:268-346): compile every function
body, define the stack probe and its trap table, serialize and define the
module data, define the start-function data and the table data, then build
the function manifest from the module's declared functions — each entry is
`(name, FunctionSpec::new(0, code_length-or-0, 0, 0))` — and finish. -/
def object_file (inp : ObjInput) : Except Error ObjectFile :=
  match compileFunctions inp.funcs with
  | Except.error e => Except.error e
  | Except.ok (defined, trapDatas) =>
    match inp.probeDefineResult with
    | Except.error e => Except.error e
    | Except.ok probeCompiled =>
      match inp.moduleDataResult with
      | Except.error e => Except.error e
      | Except.ok module_data_bytes =>
        let probeTrap :=
          write_trap_table (traps_to_module_traps probeCompiled.traps) STACK_PROBE_SYM
        let funcs : List (String × Option CompiledFunc) :=
          inp.importFuncs.map (fun s => (s, none))
            ++ defined.map (fun sc => (sc.1, some sc.2))
            ++ [(STACK_PROBE_SYM, some probeCompiled)]
        Except.ok
          { funcs := funcs
            datas := trapDatas ++ [probeTrap, write_module_data module_data_bytes]
              ++ write_startfunc_data inp.startFunc
              ++ [(write_table_data inp.tableData).1]
            moduleDataLen := module_data_bytes.length
            functionManifest := funcs.map (fun nc =>
              (nc.1, FunctionSpec.mk 0 ((nc.2.map CompiledFunc.codeLength).getD 0) 0 0))
            tableLen := (write_table_data inp.tableData).2 }

/-- The function manifest as the spec's words describe it (spec section 4.6
step 6): `(symbol, offset, length)` triples with offset and length taken
from the code-generation context after finalization, length 0 for symbols
that produced no code. The finalized context places the defined functions'
code sequentially in the code section, so a defined function's offset is
the sum of the code lengths placed before it. -/
def specManifest : List (String × Option CompiledFunc) → Nat → List (String × FunctionSpec)
  | [], _ => []
  | (n, none) :: rest, off => (n, FunctionSpec.mk 0 0 0 0) :: specManifest rest off
  | (n, some c) :: rest, off =>
    (n, FunctionSpec.mk off c.codeLength 0 0) :: specManifest rest (off + c.codeLength)

/-- Embeds `target_lexicon` architectures relevant here. -/
inductive Arch where
  | X86_64
  | Aarch64
  | Other
deriving DecidableEq, Repr

/-- A target triple, reduced to its architecture (the only part the feature
check consults). -/
structure Triple where
  arch : Arch
deriving DecidableEq, Repr

/-- Embeds `OptLevel` (compiler.rs:31-52). -/
inductive OptLevel where
  | None
  | Speed
  | SpeedAndSize
deriving DecidableEq, Repr

/-- Embeds `OptLevel::to_flag` (compiler.rs:44-52). -/
def OptLevel.to_flag : OptLevel → String
  | OptLevel.None => "none"
  | OptLevel.Speed => "speed"
  | OptLevel.SpeedAndSize => "speed_and_size"

/-- The requested CPU instruction-set extensions, as named toggles. -/
abbrev CpuFeatures := List String

/-- Modelled from the spec: the per-architecture table of instruction-set
extensions the code generator knows for that target (`cpu_features.rs` is
not among the sources; spec section 4.1). -/
def supportedFeatures : Arch → List String
  | Arch.X86_64 => ["sse3", "ssse3", "sse4.1", "sse4.2", "popcnt", "avx", "bmi1", "bmi2", "lzcnt"]
  | _ => []

/-- An ISA builder: the target with its validated feature set. -/
structure IsaBuilder where
  target : Triple
  features : CpuFeatures
deriving DecidableEq, Repr

/-- The cranelift shared flags set by `target_isa`. -/
structure Flags where
  enable_verifier : Bool
  is_pic : Bool
  opt_level : String
  enable_nan_canonicalization : Bool
deriving DecidableEq, Repr

/-- The fully configured code-generation context. -/
structure TargetIsa where
  target : Triple
  features : CpuFeatures
  flags : Flags
deriving DecidableEq, Repr

/-- Modelled from the spec: `CpuFeatures::isa_builder` (`cpu_features.rs`,
not among the sources) checks the requested feature set against the target
architecture and fails with `TargetConfiguration` when a requested
extension is unknown for (or incompatible with) that target
(spec section 4.1). -/
def isa_builder (features : CpuFeatures) (target : Triple) : Except Error IsaBuilder :=
  if features.all (fun f => (supportedFeatures target.arch).contains f)
  then Except.ok { target := target, features := features }
  else Except.error (Error.TargetConfiguration "unsupported CPU feature for target")

/-- Embeds `Compiler::target_isa` (compiler.rs:386-401): build the ISA from the CPU
features and the target, always enable the verifier and PIC, set the
optimization level, optionally enable NaN canonicalization. -/
def target_isa (target : Triple) (opt_level : OptLevel) (cpu_features : CpuFeatures)
    (canonicalize_nans : Bool) : Except Error TargetIsa :=
  match isa_builder cpu_features target with
  | Except.error e => Except.error e
  | Except.ok b =>
    Except.ok
      { target := b.target
        features := b.features
        flags :=
          { enable_verifier := true
            is_pic := true
            opt_level := opt_level.to_flag
            enable_nan_canonicalization := canonicalize_nans } }

/-- The external-validator handle (`lucet_validate::Validator`), reduced to
its observable behavior on byte strings. -/
structure Validator where
  validate : List Nat → Except Nat Unit

/-- The external collaborators `Compiler::new` calls into, reduced to their
observable outcomes: `wasmparser::validate`, `translate_module` (returning
the opaque `ModuleTranslationState` token), `FaerieBuilder::new` /
`ClifModule::new`, and `ModuleDecls::new` (returning the opaque
declaration directory). -/
structure Externals where
  wasmparserValidate : List Nat → Except Nat Unit
  translateModule : List Nat → Except WasmError Nat
  faerieBuilder : Except Error Unit
  declsNew : Except Error Nat

/-- The state a successful `Compiler::new` hands back (compiler.rs:171-180),
reduced to the fields the claims inspect. -/
structure Compiler where
  decls : Nat
  module_translation_state : Nat
  target : Triple
  opt_level : OptLevel
  cpu_features : CpuFeatures
  canonicalize_nans : Bool
deriving DecidableEq, Repr

/-- The chosen validation path of `Compiler::new` (compiler.rs:199-206):
the configured external validator when present, otherwise the baseline
structural validator `wasmparser::validate`. -/
def validationResult (ext : Externals) (validator : Option Validator)
    (wasm_binary : List Nat) : Except Error Unit :=
  match validator with
  | some v =>
    match v.validate wasm_binary with
    | Except.error e => Except.error (Error.LucetValidation e)
    | Except.ok u => Except.ok u
  | none =>
    match ext.wasmparserValidate wasm_binary with
    | Except.error e => Except.error (Error.WasmValidation e)
    | Except.ok u => Except.ok u

/-- Embeds `Compiler::new` (compiler.rs:183-252). `none` models the `unreachable!`
panic on the `WasmError::InvalidWebAssembly` branch; `some` is the
function's ordinary `Result`. Order of effects follows the source: resolve
the ISA, validate, translate the module, build the cranelift module, build
the declaration directory. -/
def Compiler.new (ext : Externals) (wasm_binary : List Nat) (target : Triple)
    (opt_level : OptLevel) (cpu_features : CpuFeatures)
    (validator : Option Validator) (canonicalize_nans : Bool) :
    Option (Except Error Compiler) :=
  match target_isa target opt_level cpu_features canonicalize_nans with
  | Except.error e => some (Except.error e)
  | Except.ok _isa =>
    match validationResult ext validator wasm_binary with
    | Except.error e => some (Except.error e)
    | Except.ok _ =>
      match ext.translateModule wasm_binary with
      | Except.error (WasmError.User u) => some (Except.error (Error.Input u))
      | Except.error (WasmError.InvalidWebAssembly _) => none
      | Except.error (WasmError.Unsupported s) => some (Except.error (Error.Unsupported s))
      | Except.error (WasmError.ImplLimitExceeded k) =>
        some (Except.error (Error.ClifWasmError (WasmError.ImplLimitExceeded k)))
      | Except.ok ts =>
        match ext.faerieBuilder with
        | Except.error e => some (Except.error e)
        | Except.ok _ =>
          match ext.declsNew with
          | Except.error e => some (Except.error e)
          | Except.ok d =>
            some (Except.ok
              { decls := d
                module_translation_state := ts
                target := target
                opt_level := opt_level
                cpu_features := cpu_features
                canonicalize_nans := canonicalize_nans })

/-! ## Helper lemmas -/

/-- A string of length zero is the empty string. -/
theorem length_zero_eq_empty (s : String) (h : s.length = 0) : s = "" := by
  cases s with
  | mk data =>
    cases data with
    | nil => rfl
    | cons c cs => simp [String.length] at h

/-- The derived trap-table symbol is 17 characters longer than the function
symbol. -/
theorem trap_sym_for_func_length (s : String) :
    (trap_sym_for_func s).length = 17 + s.length := by
  unfold trap_sym_for_func
  rw [String.length_append]
  have h : ("lucet.trap_table." : String).length = 17 := by decide
  rw [h]

/-- No trap-table symbol collides with the reserved module-data symbol. -/
theorem trap_sym_ne_module_data (s : String) :
    trap_sym_for_func s ≠ MODULE_DATA_SYM := by
  intro h
  have hl := congrArg String.length h
  rw [trap_sym_for_func_length] at hl
  have hm : (MODULE_DATA_SYM).length = 17 := by decide
  rw [hm] at hl
  have hz : s.length = 0 := by omega
  have hs := length_zero_eq_empty s hz
  subst hs
  exact absurd h (by decide)

/-- No trap-table symbol collides with the start-function symbol. -/
theorem trap_sym_ne_guest_start (s : String) :
    trap_sym_for_func s ≠ "guest_start" := by
  intro h
  have hl := congrArg String.length h
  rw [trap_sym_for_func_length] at hl
  have hm : ("guest_start" : String).length = 11 := by decide
  rw [hm] at hl
  omega

/-- No trap-table symbol collides with the table-data symbol. -/
theorem trap_sym_ne_lucet_tables (s : String) :
    trap_sym_for_func s ≠ "lucet_tables" := by
  intro h
  have hl := congrArg String.length h
  rw [trap_sym_for_func_length] at hl
  have hm : ("lucet_tables" : String).length = 12 := by decide
  rw [hm] at hl
  omega

/-- Success inversion for the per-function compilation loop: the compiled
functions line up with the input bodies (same symbols, same order) and the
trap-table data symbols line up with the compiled functions. -/
theorem compileFunctions_ok : ∀ (fs : List FuncInput) (defined : List (String × CompiledFunc))
    (datas : List DataSym), compileFunctions fs = Except.ok (defined, datas) →
    defined.map Prod.fst = fs.map FuncInput.symbol ∧
    datas = defined.map (fun sc => write_trap_table (traps_to_module_traps sc.2.traps) sc.1)
  | [], defined, datas, h => by
    simp only [compileFunctions, Except.ok.injEq, Prod.mk.injEq] at h
    obtain ⟨h1, h2⟩ := h
    subst h1; subst h2
    simp
  | f :: rest, defined, datas, h => by
    cases ht : f.translateResult with
    | error e => simp only [compileFunctions, ht] at h; exact Except.noConfusion h
    | ok u =>
      cases hd : f.defineResult with
      | error e => simp only [compileFunctions, ht, hd] at h; exact Except.noConfusion h
      | ok c =>
        cases hr : compileFunctions rest with
        | error e =>
          simp only [compileFunctions, ht, hd, hr] at h
          exact Except.noConfusion h
        | ok p =>
          obtain ⟨fns, ds⟩ := p
          simp only [compileFunctions, ht, hd, hr, Except.ok.injEq, Prod.mk.injEq] at h
          obtain ⟨h1, h2⟩ := h
          subst h1; subst h2
          obtain ⟨ih1, ih2⟩ := compileFunctions_ok rest fns ds hr
          constructor
          · simp [ih1]
          · simp [ih2]

/-- If all of `pre` lower and define successfully, a failure of the remaining
bodies is the failure of the whole loop. -/
theorem compileFunctions_append_error (pre l : List FuncInput)
    (hpre : ∀ g ∈ pre, g.translateResult = Except.ok () ∧ ∃ c, g.defineResult = Except.ok c)
    (e : Error) (h : compileFunctions l = Except.error e) :
    compileFunctions (pre ++ l) = Except.error e := by
  induction pre with
  | nil => simpa using h
  | cons g pre ih =>
    obtain ⟨hg1, c, hg2⟩ := hpre g (by simp)
    have hrest := ih (fun g hg => hpre g (by simp [hg]))
    simp only [List.cons_append, compileFunctions, List.append_eq, hg1, hg2, hrest]

/-- Success inversion for `object_file`: every stage succeeded and the
returned `ObjectFile` is exactly the assembled record. -/
theorem object_file_ok (inp : ObjInput) (obj : ObjectFile)
    (h : object_file inp = Except.ok obj) :
    ∃ (defined : List (String × CompiledFunc)) (trapDatas : List DataSym)
      (probeCompiled : CompiledFunc) (module_data_bytes : List Nat),
      compileFunctions inp.funcs = Except.ok (defined, trapDatas) ∧
      inp.probeDefineResult = Except.ok probeCompiled ∧
      inp.moduleDataResult = Except.ok module_data_bytes ∧
      obj = { funcs := inp.importFuncs.map (fun s => (s, none))
                ++ defined.map (fun sc => (sc.1, some sc.2))
                ++ [(STACK_PROBE_SYM, some probeCompiled)]
              datas := trapDatas
                ++ [write_trap_table (traps_to_module_traps probeCompiled.traps) STACK_PROBE_SYM,
                    write_module_data module_data_bytes]
                ++ write_startfunc_data inp.startFunc
                ++ [(write_table_data inp.tableData).1]
              moduleDataLen := module_data_bytes.length
              functionManifest := (inp.importFuncs.map (fun s => (s, (none : Option CompiledFunc)))
                ++ defined.map (fun (sc : String × CompiledFunc) => (sc.1, some sc.2))
                ++ [(STACK_PROBE_SYM, some probeCompiled)]).map
                  (fun (nc : String × Option CompiledFunc) =>
                    (nc.1, FunctionSpec.mk 0 ((nc.2.map CompiledFunc.codeLength).getD 0) 0 0))
              tableLen := (write_table_data inp.tableData).2 } := by
  unfold object_file at h
  cases hc : compileFunctions inp.funcs with
  | error e => rw [hc] at h; simp at h
  | ok p =>
    obtain ⟨defined, trapDatas⟩ := p
    rw [hc] at h
    cases hp : inp.probeDefineResult with
    | error e => rw [hp] at h; simp at h
    | ok probeCompiled =>
      rw [hp] at h
      cases hm : inp.moduleDataResult with
      | error e => rw [hm] at h; simp at h
      | ok module_data_bytes =>
        rw [hm] at h
        simp only [Except.ok.injEq] at h
        exact ⟨defined, trapDatas, probeCompiled, module_data_bytes, rfl, rfl, rfl, h.symm⟩

/-! ## Concrete inputs used by counterexamples and witnesses -/

/-- A function body whose lowering and definition both succeed, producing
code of the given length and no trap sites. -/
def funcOK (s : String) (len : Nat) : FuncInput :=
  { symbol := s
    translateResult := Except.ok ()
    defineResult := Except.ok { codeLength := len, traps := [] } }

/-- Project the object out of a successful `object_file` run. -/
def getObj (x : Except Error ObjectFile) : ObjectFile :=
  match x with
  | Except.ok o => o
  | Except.error _ =>
    { funcs := [], datas := [], moduleDataLen := 0, functionManifest := [], tableLen := 0 }

/-! ## Claim C1 -/

/-- Input for C1: one unreferenced import (declared, no code), two defined
functions of 4 bytes each, and the probe. -/
def c1in : ObjInput :=
  { importFuncs := ["imp"]
    funcs := [funcOK "f" 4, funcOK "g" 4]
    probeDefineResult := Except.ok { codeLength := 10, traps := [] }
    moduleDataResult := Except.ok [1, 2, 3]
    startFunc := none
    tableData := [] }

/-- Claim C1 counterexample: the manifest `object_file` builds is not the
manifest the claim describes. The claim says offset and length are taken
from the code-generation context after finalization; on this input the
finalized context places "g" at offset 4 and the probe at offset 8, yet
every manifest entry carries offset 0 — the source hardcodes the first
argument of `FunctionSpec::new` to 0 and collects the manifest before
`finish()` is called. -/
theorem c1_counterexample :
    (object_file c1in).map ObjectFile.functionManifest
      = Except.ok [("imp", FunctionSpec.mk 0 0 0 0), ("f", FunctionSpec.mk 0 4 0 0),
          ("g", FunctionSpec.mk 0 4 0 0), (STACK_PROBE_SYM, FunctionSpec.mk 0 10 0 0)] ∧
    (object_file c1in).map (fun o => specManifest o.funcs 0)
      = Except.ok [("imp", FunctionSpec.mk 0 0 0 0), ("f", FunctionSpec.mk 0 4 0 0),
          ("g", FunctionSpec.mk 4 4 0 0), (STACK_PROBE_SYM, FunctionSpec.mk 8 10 0 0)] ∧
    (object_file c1in).map ObjectFile.functionManifest
      ≠ (object_file c1in).map (fun o => specManifest o.funcs 0) := by
  refine ⟨rfl, rfl, ?_⟩
  decide

/-- Claim C1 (amended): for every successful compilation, `object_file`
builds the function manifest over the context's declared functions as
`(symbol, FunctionSpec::new(0, length, 0, 0))` pairs — the length is taken
from the code-generation context (0 for every symbol that produced no code,
e.g. an unreferenced import) while the offset field is the constant 0, a
placeholder left for resolution after linking; the manifest is collected
just before the object builder is finalized, not after. -/
theorem c1_manifest_shape (inp : ObjInput) (obj : ObjectFile)
    (h : object_file inp = Except.ok obj) :
    obj.functionManifest = obj.funcs.map
      (fun (nc : String × Option CompiledFunc) =>
        (nc.1, FunctionSpec.mk 0 ((nc.2.map CompiledFunc.codeLength).getD 0) 0 0)) := by
  obtain ⟨defined, trapDatas, probeCompiled, mdb, hc, hp, hm, hobj⟩ := object_file_ok inp obj h
  subst hobj
  rfl

/-- Witness for C1 (amended), at the concrete input `c1in`. -/
theorem c1_manifest_shape_witness :
    (getObj (object_file c1in)).functionManifest = (getObj (object_file c1in)).funcs.map
      (fun (nc : String × Option CompiledFunc) =>
        (nc.1, FunctionSpec.mk 0 ((nc.2.map CompiledFunc.codeLength).getD 0) 0 0)) :=
  c1_manifest_shape c1in (getObj (object_file c1in)) rfl

/-! ## Claim C2 -/

/-- Input for C2: a minimal successful compilation. -/
def c2in : ObjInput :=
  { importFuncs := []
    funcs := [funcOK "f" 4]
    probeDefineResult := Except.ok { codeLength := 10, traps := [] }
    moduleDataResult := Except.ok [1, 2, 3]
    startFunc := none
    tableData := [] }

/-- Claim C2 counterexample: the module-metadata blob is defined under
`MODULE_DATA_SYM`, but it is not an export — `write_module_data` declares
it with `Linkage::Local` (compiler.rs:414), so on this successfully
compiled input the symbol's linkage is `Local`, not `Export`. -/
theorem c2_counterexample :
    (object_file c2in).map (fun o =>
        (o.datas.filter (fun d => d.name == MODULE_DATA_SYM)).map DataSym.linkage)
      = Except.ok [Linkage.Local] ∧
    Linkage.Local ≠ Linkage.Export := by
  exact ⟨rfl, by decide⟩

/-- Claim C2 (amended): for every successful compilation, the
module-metadata blob is defined under the single fixed reserved symbol name
`MODULE_DATA_SYM` — exactly one data symbol of the output object carries
that name, holding the serialized module data — but it is declared with
local linkage, not as a named export. -/
theorem c2_module_data (inp : ObjInput) (obj : ObjectFile)
    (h : object_file inp = Except.ok obj) :
    ∃ bytes : List Nat, inp.moduleDataResult = Except.ok bytes ∧
      obj.datas.filter (fun d => d.name == MODULE_DATA_SYM)
        = [{ name := MODULE_DATA_SYM, linkage := Linkage.Local, writable := true,
             bytes := bytes, funcRelocs := [] }] := by
  obtain ⟨defined, trapDatas, probeCompiled, mdb, hc, hp, hm, hobj⟩ := object_file_ok inp obj h
  refine ⟨mdb, hm, ?_⟩
  subst hobj
  obtain ⟨_, hdatas⟩ := compileFunctions_ok _ _ _ hc
  subst hdatas
  have h1 : (defined.map (fun sc =>
      write_trap_table (traps_to_module_traps sc.2.traps) sc.1)).filter
        (fun d => d.name == MODULE_DATA_SYM) = [] := by
    rw [List.filter_eq_nil_iff]
    intro d hd
    rw [List.mem_map] at hd
    obtain ⟨sc, hsc, hw⟩ := hd
    subst hw
    simp [write_trap_table, trap_sym_ne_module_data]
  have h3 : (write_startfunc_data inp.startFunc).filter
      (fun d => d.name == MODULE_DATA_SYM) = [] := by
    cases inp.startFunc with
    | none => rfl
    | some s => simp [write_startfunc_data, MODULE_DATA_SYM]
  simp only [List.filter_append, h1, h3, List.nil_append, List.append_nil]
  have hprobe : (trap_sym_for_func STACK_PROBE_SYM == MODULE_DATA_SYM) = false := by
    rw [beq_eq_false_iff_ne]
    exact trap_sym_ne_module_data _
  have htab : (("lucet_tables" : String) == MODULE_DATA_SYM) = false := by decide
  simp [List.filter_cons, write_trap_table, write_module_data, write_table_data, hprobe, htab]

/-- Witness for C2 (amended), at the concrete input `c2in`. -/
theorem c2_module_data_witness :
    ∃ bytes : List Nat, c2in.moduleDataResult = Except.ok bytes ∧
      (getObj (object_file c2in)).datas.filter (fun d => d.name == MODULE_DATA_SYM)
        = [{ name := MODULE_DATA_SYM, linkage := Linkage.Local, writable := true,
             bytes := bytes, funcRelocs := [] }] :=
  c2_module_data c2in (getObj (object_file c2in)) rfl

/-! ## Claim C3 -/

/-- Externals for C3: validation passes, and `translate_module` reports an
implementation-limit-exceeded condition. -/
def c3ext : Externals :=
  { wasmparserValidate := fun _ => Except.ok ()
    translateModule := fun _ => Except.error (WasmError.ImplLimitExceeded 5)
    faerieBuilder := Except.ok ()
    declsNew := Except.ok 0 }

/-- Does an error use the dedicated `ImplementationLimitExceeded` variant of
the error taxonomy? -/
def errIsImplementationLimit : Error → Bool
  | Error.ImplementationLimitExceeded _ => true
  | _ => false

/-- Does a `Compiler::new` outcome fail with an error satisfying `p`? -/
def resultErrSat (p : Error → Bool) : Option (Except Error Compiler) → Bool
  | some (Except.error e) => p e
  | _ => false

/-- Claim C3 counterexample: when `translate_module` reports
`ImplLimitExceeded`, `Compiler::new` does not fail with the dedicated
`ImplementationLimitExceeded` variant of the error taxonomy — it wraps the
translation error in the generic `ClifWasmError` variant
(compiler.rs:218). -/
theorem c3_counterexample :
    Compiler.new c3ext [0] (Triple.mk Arch.X86_64) OptLevel.SpeedAndSize [] none false
      = some (Except.error (Error.ClifWasmError (WasmError.ImplLimitExceeded 5))) ∧
    resultErrSat errIsImplementationLimit
      (Compiler.new c3ext [0] (Triple.mk Arch.X86_64) OptLevel.SpeedAndSize [] none false)
      = false := by
  exact ⟨rfl, rfl⟩

/-- Claim C3 (amended): when module translation exceeds an internal capacity
limit (`translate_module` reports `ImplLimitExceeded`), `Compiler::new`
fails with `ClifWasmError` carrying that translation error (not with a
dedicated `ImplementationLimitExceeded` variant); translation does not
partially apply — no `Compiler` value is produced. -/
theorem c3_impl_limit (ext : Externals) (wasm : List Nat) (target : Triple)
    (opt : OptLevel) (cpu : CpuFeatures) (validator : Option Validator)
    (canon : Bool) (k : Nat)
    (hfeat : cpu.all (fun f => (supportedFeatures target.arch).contains f) = true)
    (hval : validationResult ext validator wasm = Except.ok ())
    (htr : ext.translateModule wasm = Except.error (WasmError.ImplLimitExceeded k)) :
    Compiler.new ext wasm target opt cpu validator canon
      = some (Except.error (Error.ClifWasmError (WasmError.ImplLimitExceeded k))) := by
  have htisa : target_isa target opt cpu canon
      = Except.ok
          { target := target
            features := cpu
            flags :=
              { enable_verifier := true
                is_pic := true
                opt_level := opt.to_flag
                enable_nan_canonicalization := canon } } := by
    unfold target_isa isa_builder
    rw [if_pos hfeat]
  simp only [Compiler.new, htisa, hval, htr]

/-- Witness for C3 (amended), at the concrete externals `c3ext`. -/
theorem c3_impl_limit_witness :
    Compiler.new c3ext [0] (Triple.mk Arch.X86_64) OptLevel.Speed [] none false
      = some (Except.error (Error.ClifWasmError (WasmError.ImplLimitExceeded 5))) :=
  c3_impl_limit c3ext [0] (Triple.mk Arch.X86_64) OptLevel.Speed [] none false 5 rfl rfl rfl

/-! ## Claim C4 -/

/-- Input for C4: one import declared without code, one defined function
with a trap site. -/
def c4in : ObjInput :=
  { importFuncs := ["imp"]
    funcs := [{ symbol := "f"
                translateResult := Except.ok ()
                defineResult := Except.ok
                  { codeLength := 4, traps := [ClifTrapSite.mk 1 ClifTrapCode.HeapOutOfBounds] } }]
    probeDefineResult := Except.ok { codeLength := 10, traps := [] }
    moduleDataResult := Except.ok [7]
    startFunc := none
    tableData := [9] }

/-- Claim C4 counterexample: on this successfully compiled module with one
defined function and one import, the manifest has 3 entries, not
(#defined functions) + 1 = 2 — declared-but-undefined imports get manifest
entries too — and the trap-table data symbol `lucet.trap_table.f` is
defined in the object but does not appear in the manifest at all. -/
theorem c4_counterexample :
    (object_file c4in).map (fun o =>
        (o.functionManifest.map Prod.fst, o.functionManifest.length, o.datas.map DataSym.name))
      = Except.ok (["imp", "f", STACK_PROBE_SYM], 3,
          [trap_sym_for_func "f", trap_sym_for_func STACK_PROBE_SYM,
           MODULE_DATA_SYM, "lucet_tables"]) ∧
    c4in.funcs.length + 1 ≠ 3 ∧
    trap_sym_for_func "f" ∉ ["imp", "f", STACK_PROBE_SYM] := by
  refine ⟨rfl, by decide, by decide⟩

/-- Claim C4 (amended): for every successfully compiled module, the function
manifest lists exactly the declared functions — each declared function
(imports included) exactly once, in declaration order, plus the stack
probe — so the number of manifest entries equals
(#declared imports) + (#defined functions) + 1; data symbols (trap tables,
module data, start function, table data) are not manifest entries. -/
theorem c4_manifest_names (inp : ObjInput) (obj : ObjectFile)
    (h : object_file inp = Except.ok obj)
    (hnd : (inp.importFuncs ++ inp.funcs.map FuncInput.symbol ++ [STACK_PROBE_SYM]).Nodup) :
    obj.functionManifest.map Prod.fst
        = inp.importFuncs ++ inp.funcs.map FuncInput.symbol ++ [STACK_PROBE_SYM] ∧
    obj.functionManifest.length = inp.importFuncs.length + inp.funcs.length + 1 ∧
    (obj.functionManifest.map Prod.fst).Nodup := by
  obtain ⟨defined, trapDatas, probeCompiled, mdb, hc, hp, hm, hobj⟩ := object_file_ok inp obj h
  obtain ⟨hsyms, _⟩ := compileFunctions_ok _ _ _ hc
  subst hobj
  have hnames : ((inp.importFuncs.map (fun s => (s, (none : Option CompiledFunc)))
        ++ defined.map (fun (sc : String × CompiledFunc) => (sc.1, some sc.2))
        ++ [(STACK_PROBE_SYM, some probeCompiled)]).map
          (fun (nc : String × Option CompiledFunc) =>
            (nc.1, FunctionSpec.mk 0 ((nc.2.map CompiledFunc.codeLength).getD 0) 0 0))).map Prod.fst
      = inp.importFuncs ++ inp.funcs.map FuncInput.symbol ++ [STACK_PROBE_SYM] := by
    simp only [List.map_append, List.map_map, Function.comp_def]
    rw [← hsyms]
    simp
  refine ⟨hnames, ?_, by rw [hnames]; exact hnd⟩
  have h2 := congrArg List.length hnames
  rw [List.length_map] at h2
  rw [h2]
  simp only [List.length_append, List.length_map, List.length_cons, List.length_nil]

/-- Witness for C4 (amended), at the concrete input `c4in`. -/
theorem c4_manifest_names_witness :
    (getObj (object_file c4in)).functionManifest.map Prod.fst
        = c4in.importFuncs ++ c4in.funcs.map FuncInput.symbol ++ [STACK_PROBE_SYM] ∧
    (getObj (object_file c4in)).functionManifest.length
        = c4in.importFuncs.length + c4in.funcs.length + 1 ∧
    ((getObj (object_file c4in)).functionManifest.map Prod.fst).Nodup :=
  c4_manifest_names c4in (getObj (object_file c4in)) rfl (by decide)

/-! ## Claim C5 -/

/-- Input for C5: a module declaring function "f0" as its start function. -/
def c5in : ObjInput :=
  { importFuncs := []
    funcs := [funcOK "f0" 6]
    probeDefineResult := Except.ok { codeLength := 10, traps := [] }
    moduleDataResult := Except.ok [2]
    startFunc := some "f0"
    tableData := [] }

/-- Claim C5: for every compiled module, the fixed exported start symbol
`guest_start` is defined in the output object if and only if the module
declares a start function; when defined it is an exported 8-byte data
symbol holding eight zero bytes with a function-address relocation at
offset 0 targeting the start function's own code symbol, so after
relocation its 8 bytes resolve to that symbol. -/
theorem c5_startfunc (inp : ObjInput) (obj : ObjectFile)
    (h : object_file inp = Except.ok obj) :
    (obj.datas.filter (fun d => d.name == "guest_start") ≠ [] ↔ inp.startFunc.isSome) ∧
    ∀ s, inp.startFunc = some s →
      obj.datas.filter (fun d => d.name == "guest_start")
        = [{ name := "guest_start", linkage := Linkage.Export, writable := false,
             bytes := List.replicate 8 0, funcRelocs := [(0, s)] }] := by
  obtain ⟨defined, trapDatas, probeCompiled, mdb, hc, hp, hm, hobj⟩ := object_file_ok inp obj h
  subst hobj
  obtain ⟨_, hdatas⟩ := compileFunctions_ok _ _ _ hc
  subst hdatas
  have h1 : (defined.map (fun sc =>
      write_trap_table (traps_to_module_traps sc.2.traps) sc.1)).filter
        (fun d => d.name == "guest_start") = [] := by
    rw [List.filter_eq_nil_iff]
    intro d hd
    rw [List.mem_map] at hd
    obtain ⟨sc, hsc, hw⟩ := hd
    subst hw
    simp [write_trap_table, trap_sym_ne_guest_start]
  have hprobe : (trap_sym_for_func STACK_PROBE_SYM == ("guest_start" : String)) = false := by
    rw [beq_eq_false_iff_ne]
    exact trap_sym_ne_guest_start _
  have hfilter : (List.filter (fun d => d.name == "guest_start")
        (defined.map (fun sc => write_trap_table (traps_to_module_traps sc.2.traps) sc.1)
          ++ [write_trap_table (traps_to_module_traps probeCompiled.traps) STACK_PROBE_SYM,
              write_module_data mdb]
          ++ write_startfunc_data inp.startFunc
          ++ [(write_table_data inp.tableData).1]))
      = write_startfunc_data inp.startFunc := by
    simp only [List.filter_append, h1, List.nil_append]
    have h2 : (List.filter (fun d => d.name == "guest_start")
        [write_trap_table (traps_to_module_traps probeCompiled.traps) STACK_PROBE_SYM,
         write_module_data mdb]) = [] := by
      simp [List.filter_cons, write_trap_table, write_module_data, MODULE_DATA_SYM, hprobe]
    have h4 : (List.filter (fun d => d.name == "guest_start")
        [(write_table_data inp.tableData).1]) = [] := by
      simp [List.filter_cons, write_table_data]
    have h5 : (List.filter (fun d => d.name == "guest_start")
        (write_startfunc_data inp.startFunc)) = write_startfunc_data inp.startFunc := by
      cases inp.startFunc with
      | none => rfl
      | some s => simp [write_startfunc_data]
    rw [h2, h4, h5, List.nil_append, List.append_nil]
  rw [hfilter]
  constructor
  · cases hs : inp.startFunc with
    | none => simp [write_startfunc_data]
    | some s => simp [write_startfunc_data]
  · intro s hs
    rw [hs]
    rfl

/-- Witness for C5, at the concrete input `c5in` (start function "f0"). -/
theorem c5_startfunc_witness :
    ((getObj (object_file c5in)).datas.filter (fun d => d.name == "guest_start") ≠ []
        ↔ c5in.startFunc.isSome) ∧
    (getObj (object_file c5in)).datas.filter (fun d => d.name == "guest_start")
        = [{ name := "guest_start", linkage := Linkage.Export, writable := false,
             bytes := List.replicate 8 0, funcRelocs := [(0, "f0")] }] :=
  ⟨(c5_startfunc c5in (getObj (object_file c5in)) rfl).1,
   (c5_startfunc c5in (getObj (object_file c5in)) rfl).2 "f0" rfl⟩

/-! ## Claim C6 -/

/-- Each serialized trap-site record is exactly 8 bytes wide. -/
theorem bytesOfTrapSite_length (t : TrapSite) : (bytesOfTrapSite t).length = 8 := rfl

/-- The trap-table serializer emits one record per site, in list order. -/
theorem traps_to_module_traps_cons (t : ClifTrapSite) (rest : List ClifTrapSite) :
    traps_to_module_traps (t :: rest)
      = bytesOfTrapSite (TrapSite.mk t.offset (translate_trapcode t.code))
          ++ traps_to_module_traps rest := by
  simp [traps_to_module_traps]

/-- The trap-table blob's byte length is the trap-site count times the
8-byte record size. -/
theorem traps_to_module_traps_length (ts : List ClifTrapSite) :
    (traps_to_module_traps ts).length = ts.length * 8 := by
  induction ts with
  | nil => rfl
  | cons t rest ih =>
    rw [traps_to_module_traps_cons, List.length_append, bytesOfTrapSite_length, ih]
    simp [List.length_cons]
    ring

/-- Input for C6: one defined function with two trap sites and a probe with
one trap site. -/
def c6in : ObjInput :=
  { importFuncs := []
    funcs := [{ symbol := "f"
                translateResult := Except.ok ()
                defineResult := Except.ok
                  { codeLength := 16
                    traps := [ClifTrapSite.mk 2 ClifTrapCode.HeapOutOfBounds,
                              ClifTrapSite.mk 9 ClifTrapCode.IntegerDivisionByZero] } }]
    probeDefineResult := Except.ok
      { codeLength := 10, traps := [ClifTrapSite.mk 0 ClifTrapCode.StackOverflow] }
    moduleDataResult := Except.ok [5]
    startFunc := none
    tableData := [] }

/-- Claim C6: for every compiled function and for the stack probe,
`object_file` serializes the function's trap-site list into a fixed-width
binary table — one 8-byte record per trap site, in list order, so the
blob's byte length equals the trap-site count times the record size — and
defines it under the symbol derived from the function's symbol with export
linkage. -/
theorem c6_trap_tables (inp : ObjInput) (obj : ObjectFile)
    (h : object_file inp = Except.ok obj) :
    (∀ sc ∈ obj.funcs, ∀ c : CompiledFunc, sc.2 = some c →
        ({ name := trap_sym_for_func sc.1, linkage := Linkage.Export, writable := false,
           bytes := traps_to_module_traps c.traps, funcRelocs := [] } : DataSym) ∈ obj.datas) ∧
    (∀ ts : List ClifTrapSite, traps_to_module_traps ts
        = List.flatten ((ts.map fun site =>
            TrapSite.mk site.offset (translate_trapcode site.code)).map bytesOfTrapSite)) ∧
    (∀ ts : List ClifTrapSite, (traps_to_module_traps ts).length = ts.length * 8) := by
  refine ⟨?_, fun ts => rfl, traps_to_module_traps_length⟩
  obtain ⟨defined, trapDatas, probeCompiled, mdb, hc, hp, hm, hobj⟩ := object_file_ok inp obj h
  subst hobj
  obtain ⟨_, hdatas⟩ := compileFunctions_ok _ _ _ hc
  subst hdatas
  intro sc hsc c hsome
  simp only [List.mem_append, List.mem_map] at hsc
  rcases hsc with (himp | hdef) | hpr
  · obtain ⟨s, hs, hw⟩ := himp
    rw [← hw] at hsome
    exact absurd hsome (by simp)
  · obtain ⟨dc, hdc, hw⟩ := hdef
    rw [← hw] at hsome
    simp only at hsome
    rw [← hw]
    simp only
    have hceq : c = dc.2 := by
      injection hsome with h'
      exact h'.symm
    subst hceq
    apply List.mem_append_left
    apply List.mem_append_left
    apply List.mem_append_left
    rw [List.mem_map]
    exact ⟨dc, hdc, by simp [write_trap_table]⟩
  · rw [List.mem_singleton] at hpr
    rw [hpr] at hsome ⊢
    simp only at hsome
    have hceq : c = probeCompiled := by
      injection hsome with h'
      exact h'.symm
    subst hceq
    apply List.mem_append_left
    apply List.mem_append_left
    apply List.mem_append_right
    simp [write_trap_table]

/-- Witness for C6, at the concrete input `c6in`: the trap table of "f" is
in the object. -/
theorem c6_trap_tables_witness :
    ({ name := trap_sym_for_func "f", linkage := Linkage.Export, writable := false,
       bytes := traps_to_module_traps
         [ClifTrapSite.mk 2 ClifTrapCode.HeapOutOfBounds,
          ClifTrapSite.mk 9 ClifTrapCode.IntegerDivisionByZero],
       funcRelocs := [] } : DataSym) ∈ (getObj (object_file c6in)).datas :=
  (c6_trap_tables c6in (getObj (object_file c6in)) rfl).1
    ("f", some { codeLength := 16
                 traps := [ClifTrapSite.mk 2 ClifTrapCode.HeapOutOfBounds,
                           ClifTrapSite.mk 9 ClifTrapCode.IntegerDivisionByZero] })
    (by decide)
    { codeLength := 16
      traps := [ClifTrapSite.mk 2 ClifTrapCode.HeapOutOfBounds,
                ClifTrapSite.mk 9 ClifTrapCode.IntegerDivisionByZero] }
    rfl

/-! ## Claim C7 -/

/-- Claim C7: if lowering of a function body fails (all bodies before it
having compiled), `object_file` returns `FunctionTranslation` carrying that
function's symbol and the cause; if lowering succeeds but native-code
definition fails, it returns `FunctionDefinition` carrying the symbol and
the cause; in either case no `ObjectFile` value is returned. -/
theorem c7_atomic_failure (inp : ObjInput) (pre : List FuncInput) (f : FuncInput)
    (rest : List FuncInput) (hsplit : inp.funcs = pre ++ f :: rest)
    (hpre : ∀ g ∈ pre, g.translateResult = Except.ok () ∧ ∃ c, g.defineResult = Except.ok c) :
    (∀ e, f.translateResult = Except.error e →
        object_file inp = Except.error (Error.FunctionTranslation f.symbol e) ∧
        ∀ obj, object_file inp ≠ Except.ok obj) ∧
    (∀ e, f.translateResult = Except.ok () → f.defineResult = Except.error e →
        object_file inp = Except.error (Error.FunctionDefinition f.symbol e) ∧
        ∀ obj, object_file inp ≠ Except.ok obj) := by
  constructor
  · intro e he
    have hhead : compileFunctions (f :: rest)
        = Except.error (Error.FunctionTranslation f.symbol e) := by
      simp only [compileFunctions, he]
    have hall := compileFunctions_append_error pre (f :: rest) hpre _ hhead
    rw [← hsplit] at hall
    have hobj : object_file inp = Except.error (Error.FunctionTranslation f.symbol e) := by
      unfold object_file
      rw [hall]
    exact ⟨hobj, fun obj hok => by rw [hobj] at hok; exact Except.noConfusion hok⟩
  · intro e ht he
    have hhead : compileFunctions (f :: rest)
        = Except.error (Error.FunctionDefinition f.symbol e) := by
      simp only [compileFunctions, ht, he]
    have hall := compileFunctions_append_error pre (f :: rest) hpre _ hhead
    rw [← hsplit] at hall
    have hobj : object_file inp = Except.error (Error.FunctionDefinition f.symbol e) := by
      unfold object_file
      rw [hall]
    exact ⟨hobj, fun obj hok => by rw [hobj] at hok; exact Except.noConfusion hok⟩

/-- Input for C7: one good body, then one whose lowering fails with cause
42. -/
def c7in : ObjInput :=
  { importFuncs := []
    funcs := [funcOK "g0" 3,
              { symbol := "bad"
                translateResult := Except.error 42
                defineResult := Except.error 0 }]
    probeDefineResult := Except.ok { codeLength := 10, traps := [] }
    moduleDataResult := Except.ok []
    startFunc := none
    tableData := [] }

/-- Witness for C7, at the concrete input `c7in`: the whole compilation
fails with `FunctionTranslation "bad" 42`. -/
theorem c7_atomic_failure_witness :
    object_file c7in = Except.error (Error.FunctionTranslation "bad" 42) :=
  ((c7_atomic_failure c7in [funcOK "g0" 3]
      { symbol := "bad", translateResult := Except.error 42, defineResult := Except.error 0 }
      [] rfl
      (by intro g hg
          rw [List.mem_singleton] at hg
          subst hg
          exact ⟨rfl, ⟨{ codeLength := 3, traps := [] }, rfl⟩⟩)).1 42 rfl).1

/-! ## Claim C8 -/

/-- Claim C8: if the requested CPU feature set is incompatible with (or
unknown for) the target triple, `Compiler::new` fails with a
`TargetConfiguration` error. The externals (validators, translator) and the
configured validator are universally quantified and do not appear in the
conclusion: the ISA is resolved first, so no validation or module
translation is attempted on this failure path. -/
theorem c8_target_configuration (ext : Externals) (wasm : List Nat) (target : Triple)
    (opt : OptLevel) (cpu : CpuFeatures) (validator : Option Validator) (canon : Bool)
    (hbad : cpu.all (fun f => (supportedFeatures target.arch).contains f) = false) :
    Compiler.new ext wasm target opt cpu validator canon
      = some (Except.error (Error.TargetConfiguration "unsupported CPU feature for target")) := by
  have htisa : target_isa target opt cpu canon
      = Except.error (Error.TargetConfiguration "unsupported CPU feature for target") := by
    unfold target_isa isa_builder
    rw [if_neg]
    intro hcontra
    rw [hcontra] at hbad
    exact Bool.noConfusion hbad
  simp only [Compiler.new, htisa]

/-- Externals for the C8 witness; never consulted by the failing path. -/
def c8ext : Externals :=
  { wasmparserValidate := fun _ => Except.ok ()
    translateModule := fun _ => Except.ok 0
    faerieBuilder := Except.ok ()
    declsNew := Except.ok 0 }

/-- Witness for C8: requesting AVX on an aarch64 target fails with
`TargetConfiguration`. -/
theorem c8_target_configuration_witness :
    Compiler.new c8ext [0] (Triple.mk Arch.Aarch64) OptLevel.SpeedAndSize ["avx"] none false
      = some (Except.error (Error.TargetConfiguration "unsupported CPU feature for target")) :=
  c8_target_configuration c8ext [0] (Triple.mk Arch.Aarch64) OptLevel.SpeedAndSize
    ["avx"] none false (by decide)

/-! ## Claim C9 -/

/-- Claim C9: under the precondition that the input bytes passed the chosen
validation path (the configured external validator, or the baseline
structural validator otherwise), and given that the external
`translate_module` never reports invalid WebAssembly for such validated
input, `Compiler::new` never reaches the `unreachable!` assertion on the
`InvalidWebAssembly` branch (here: never returns `none`). -/
theorem c9_no_invalid_panic (ext : Externals) (wasm : List Nat) (target : Triple)
    (opt : OptLevel) (cpu : CpuFeatures) (validator : Option Validator) (canon : Bool)
    (hval : validationResult ext validator wasm = Except.ok ())
    (hsound : ∀ k, ext.translateModule wasm ≠ Except.error (WasmError.InvalidWebAssembly k)) :
    Compiler.new ext wasm target opt cpu validator canon ≠ none := by
  unfold Compiler.new
  cases h1 : target_isa target opt cpu canon with
  | error e => simp
  | ok isa =>
    rw [hval]
    cases h2 : ext.translateModule wasm with
    | error we =>
      cases we with
      | User u => simp
      | InvalidWebAssembly k => exact absurd h2 (hsound k)
      | Unsupported s => simp
      | ImplLimitExceeded k => simp
    | ok ts =>
      cases h3 : ext.faerieBuilder with
      | error e => simp
      | ok u =>
        cases h4 : ext.declsNew with
        | error e => simp
        | ok d => simp

/-- Externals for the C9 witness: validation passes and translation
succeeds. -/
def c9ext : Externals :=
  { wasmparserValidate := fun _ => Except.ok ()
    translateModule := fun _ => Except.ok 3
    faerieBuilder := Except.ok ()
    declsNew := Except.ok 1 }

/-- Witness for C9, at concrete externals with sound translation. -/
theorem c9_no_invalid_panic_witness :
    Compiler.new c9ext [1] (Triple.mk Arch.X86_64) OptLevel.None [] none false ≠ none :=
  c9_no_invalid_panic c9ext [1] (Triple.mk Arch.X86_64) OptLevel.None [] none false rfl
    (fun _ h => Except.noConfusion h)

/-! ## Claim C10 -/

/-- Claim C10: `Compiler::new` enforces validation before translation. With
no external validator configured it runs the baseline structural validator
`wasmparser::validate` on the raw bytes and, on failure, returns
`WasmValidation` without ever invoking `translate_module` (the conclusion
holds for every translation oracle `tm`, so no translation state is built
from unvalidated bytes); with an external validator configured, a
validation failure likewise returns `LucetValidation` before any
translation. -/
theorem c10_validation_gates_translation (ext : Externals) (wasm : List Nat)
    (target : Triple) (opt : OptLevel) (cpu : CpuFeatures) (canon : Bool)
    (hfeat : cpu.all (fun f => (supportedFeatures target.arch).contains f) = true) :
    (∀ e, ext.wasmparserValidate wasm = Except.error e →
      ∀ tm, Compiler.new { ext with translateModule := tm } wasm target opt cpu none canon
          = some (Except.error (Error.WasmValidation e))) ∧
    (∀ v e, v.validate wasm = Except.error e →
      ∀ tm, Compiler.new { ext with translateModule := tm } wasm target opt cpu (some v) canon
          = some (Except.error (Error.LucetValidation e))) := by
  have htisa : target_isa target opt cpu canon
      = Except.ok
          { target := target
            features := cpu
            flags :=
              { enable_verifier := true
                is_pic := true
                opt_level := opt.to_flag
                enable_nan_canonicalization := canon } } := by
    unfold target_isa isa_builder
    rw [if_pos hfeat]
  constructor
  · intro e he tm
    have hv : validationResult { ext with translateModule := tm } none wasm
        = Except.error (Error.WasmValidation e) := by
      simp only [validationResult, he]
    simp only [Compiler.new, htisa, hv]
  · intro v e he tm
    have hv : validationResult { ext with translateModule := tm } (some v) wasm
        = Except.error (Error.LucetValidation e) := by
      simp only [validationResult, he]
    simp only [Compiler.new, htisa, hv]

/-- Externals for the C10 witness: the baseline validator rejects the bytes
with cause 3. -/
def c10ext : Externals :=
  { wasmparserValidate := fun _ => Except.error 3
    translateModule := fun _ => Except.ok 0
    faerieBuilder := Except.ok ()
    declsNew := Except.ok 0 }

/-- Witness for C10: with no external validator and failing baseline
validation, `Compiler::new` fails with `WasmValidation` for an arbitrary
concrete translation oracle. -/
theorem c10_validation_gates_translation_witness :
    Compiler.new { c10ext with translateModule := fun _ => Except.ok 9 } [9]
        (Triple.mk Arch.X86_64) OptLevel.Speed [] none false
      = some (Except.error (Error.WasmValidation 3)) :=
  (c10_validation_gates_translation c10ext [9] (Triple.mk Arch.X86_64) OptLevel.Speed []
      false rfl).1 3 rfl (fun _ => Except.ok 9)

end Lucet
